import Mathlib

/-!
Verification of the NetBox movie-catalog service (database.py and the two
Flask front ends in app.py / backend/app.py) against its natural-language
specification.

Shallow embedding conventions:
- SQL text values and Python strings are modelled as lists of character
  codes (`Str := List Nat`); `strCodes` converts a Lean string literal to
  its code list for concrete inputs.
- The PostgreSQL state touched by the claims is modelled by `DB`: the
  movies, qualities and watchlist tables plus row counts for users and
  download_log and the two SERIAL sequences.
- Backend failures (connection loss, constraint violations surfacing as
  psycopg2 exceptions) are injected through an explicit `fail : Bool`
  argument on each store operation; the operation's `except` clause is
  embedded as the value the Python function returns on that path.  A
  Python function that re-raises is embedded with `Except`.
- SQL `LIKE`, `LOWER`, Python `str.strip` / `str.upper` / `str.lower`
  are embedded character-by-character (`likeMatch`, `lowerStr`, `pyStrip`,
  `upperStr`) over ASCII codes, matching the behaviour the service relies
  on for its ASCII route parameters.
-/

namespace NetBox

/-- Character-code strings: the program's text values. -/
abbrev Str := List Nat

/-- Code list of a Lean string literal (used only to write concrete inputs). -/
def strCodes (s : String) : Str := s.data.map Char.toNat

/-- SQL LOWER / Python str.lower on one ASCII code (A-Z ↦ a-z). -/
def lowerChar (c : Nat) : Nat := if 65 ≤ c ∧ c ≤ 90 then c + 32 else c

/-- SQL LOWER / Python str.lower on a string. -/
def lowerStr (s : Str) : Str := s.map lowerChar

/-- Python str.upper on one ASCII code (a-z ↦ A-Z). -/
def upperChar (c : Nat) : Nat := if 97 ≤ c ∧ c ≤ 122 then c - 32 else c

/-- Python str.upper on a string. -/
def upperStr (s : Str) : Str := s.map upperChar

/-- Python whitespace (the characters str.strip removes). -/
def isWs (c : Nat) : Bool := c == 32 || c == 9 || c == 10 || c == 13 || c == 11 || c == 12

/-- Remove trailing whitespace (the right half of Python str.strip). -/
def dropEndWs : Str → Str
  | [] => []
  | c :: t =>
    let r := dropEndWs t
    if r.isEmpty && isWs c then [] else c :: r

/-- Python str.strip: remove leading and trailing whitespace. -/
def pyStrip (l : Str) : Str := dropEndWs (l.dropWhile isWs)

/-- `startsW p s`: s begins with p (substring machinery for `in` / LIKE). -/
def startsW : Str → Str → Bool
  | [], _ => true
  | _ :: _, [] => false
  | a :: p, b :: s => a == b && startsW p s

/-- `hasSub p s`: p occurs contiguously in s (Python `p in s`). -/
def hasSub (p : Str) : Str → Bool
  | [] => startsW p []
  | s@(_ :: t) => startsW p s || hasSub p t

/-- All suffixes of a string, longest first (the empty suffix last). -/
def tails : Str → List Str
  | [] => [[]]
  | s@(_ :: t) => s :: tails t

/-- SQL LIKE matching with PostgreSQL's default escape: 37 (percent)
matches any sequence, 95 (underscore) matches any single character, 92
(backslash) escapes the following pattern character so it matches itself
literally, and anything else matches itself.  First argument is the
pattern, second the candidate string; a percent consumes any prefix, so
the rest of the pattern must match some suffix.  A pattern ending in a
dangling escape raises an error in PostgreSQL, which the store's except
clause converts to the empty result; it is mapped to a never-matching
pattern here, which yields the same empty result - and the percent-term-
percent patterns the store builds can never end in a dangling escape. -/
def likeMatch : Str → Str → Bool
  | [], s => s.isEmpty
  | c :: p, s =>
    if c = 37 then (tails s).any (fun t => likeMatch p t)
    else if c = 92 then
      match p, s with
      | [], _ => false
      | _ :: _, [] => false
      | e :: p2, d :: s2 => e == d && likeMatch p2 s2
    else
      match s with
      | [] => false
      | d :: s2 => if c = 95 then likeMatch p s2 else (c == d && likeMatch p s2)

/-- ORDER BY m.title: lexicographic comparison on code lists. -/
def titleLe : Str → Str → Bool
  | [], _ => true
  | _ :: _, [] => false
  | a :: s, b :: t => decide (a < b) || (decide (a = b) && titleLe s t)

/-- Insertion step of the sort used to embed SQL ORDER BY. -/
def insertBy (le : α → α → Bool) (a : α) : List α → List α
  | [] => [a]
  | b :: t => if le a b then a :: b :: t else b :: insertBy le a t

/-- Stable insertion sort embedding SQL ORDER BY (ties keep backend order). -/
def sortBy (le : α → α → Bool) : List α → List α
  | [] => []
  | a :: t => insertBy le a (sortBy le t)

/-- First occurrences of each element (SQL GROUP BY key list). -/
def distincts (l : List Str) : List Str :=
  l.foldl (fun acc s => if acc.contains s then acc else acc ++ [s]) []

/-- One row of the movies table (schema from init_database, database.py).
Numeric rating is kept as an integer of tenths; timestamps are omitted
(no claim reads them). -/
structure MovieRow where
  id : Nat
  title : Str
  year : Option Int
  description : Str
  posterUrl : Str
  language : Str
  genre : Str
  duration : Option Int
  rating : Option Int
  imdbId : Str
  isActive : Bool
deriving Repr, DecidableEq

/-- One row of the qualities table (file_path and download_url are NOT NULL
in the schema, so successful rows hold plain values). -/
structure QualityRow where
  id : Nat
  movieId : Nat
  qualityCode : Str
  qualityName : Str
  fileSize : Option Str
  filePath : Str
  downloadUrl : Str
  durationSeconds : Option Int
  bitrate : Option Str
  resolution : Option Str
deriving Repr, DecidableEq

/-- One row of the watchlist table (the UNIQUE(user_id, movie_id) pair). -/
structure WatchRow where
  userId : Nat
  movieId : Nat
deriving Repr, DecidableEq

/-- The database state the claims read: three tables in full, row counts for
users and download_log (only counted by the stats query), and the two
SERIAL sequences. -/
structure DB where
  movies : List MovieRow
  qualities : List QualityRow
  watchlist : List WatchRow
  users : Nat
  downloadLogs : Nat
  nextMovieId : Nat
  nextQualityId : Nat
deriving Repr, DecidableEq

/-- The empty, freshly initialised database. -/
def emptyDB : DB := ⟨[], [], [], 0, 0, 1, 1⟩

/-- The quality object search_movies aggregates per movie:
json_build_object of code, name, size, url. -/
structure QualityJson where
  code : Str
  name : Str
  size : Option Str
  url : Str
deriving Repr, DecidableEq

/-- One search_movies result row: the movie columns plus the aggregated
qualities array (COALESCE(json_agg(...), the empty array)). -/
structure SearchResult where
  movie : MovieRow
  qualities : List QualityJson
deriving Repr, DecidableEq

/-- The quality array the LEFT JOIN / json_agg produces for one movie id,
in qualities-table order; empty when the movie has no qualities. -/
def qualitiesOf (db : DB) (mid : Nat) : List QualityJson :=
  (db.qualities.filter (fun q => q.movieId == mid)).map
    (fun q => ⟨q.qualityCode, q.qualityName, q.fileSize, q.downloadUrl⟩)

/-- search_movies (database.py 177-238).  The WHERE clause keeps active
movies, adds LOWER(title) LIKE LOWER(percent-title-percent) when the title
argument is non-empty and an exact language equality when a language is
given; rows are one per movie id (GROUP BY m.id), ordered by title
(ORDER BY m.title) and capped (LIMIT).  The quality argument is accepted
and never used, exactly as in the source.  On a backend failure the
except clause returns the empty list. -/
def search_movies (db : DB) (title : Str) (language quality : Option Str)
    (limit : Nat) (fail : Bool) : List SearchResult :=
  if fail then []
  else
    let base := db.movies.filter (fun m =>
      m.isActive &&
      (title.isEmpty || likeMatch (lowerStr (37 :: title ++ [37])) (lowerStr m.title)) &&
      (match language with
       | none => true
       | some lang => m.language == lang))
    ((sortBy (fun a b => titleLe a.title b.title) base).map
      (fun m => SearchResult.mk m (qualitiesOf db m.id))).take limit

/-- Input record for one quality (the quality_data dict of
add_movie_quality): .get fields are optional; file_path and download_url
feed NOT NULL columns, so a missing value makes the INSERT fail. -/
structure QualityInput where
  code : Str
  name : Str
  size : Option Str
  file_path : Option Str
  download_url : Option Str
  duration : Option Int
  bitrate : Option Str
  resolution : Option Str
deriving Repr, DecidableEq

/-- Input record for add_movie (the movie_data dict); optional fields are
the dict.get lookups, qualities is present iff the key 'qualities' is. -/
structure MovieInput where
  title : Str
  year : Option Int
  description : Option Str
  poster_url : Option Str
  language : Option Str
  genre : Option Str
  duration : Option Int
  rating : Option Int
  imdb_id : Option Str
  qualities : Option (List QualityInput)
deriving Repr, DecidableEq

/-- The qualities-table row an INSERT of one QualityInput produces. -/
def qualityRowOf (qid mid : Nat) (q : QualityInput) : QualityRow :=
  ⟨qid, mid, q.code, q.name, q.size, q.file_path.getD [], q.download_url.getD [],
   q.duration, q.bitrate, q.resolution⟩

/-- Whether the INSERT INTO qualities succeeds against the rows already
pending: both NOT NULL columns present and UNIQUE(movie_id, quality_code)
not violated. -/
def qualityInsertOk (pending : List QualityRow) (mid : Nat) (q : QualityInput) : Bool :=
  q.file_path.isSome && q.download_url.isSome &&
    pending.all (fun r => !(r.movieId == mid && r.qualityCode == q.code))

/-- The loop in add_movie inserting each quality on the shared cursor:
all inserts are buffered on the one uncommitted transaction; the first
failing INSERT raises, which maps to none. -/
def insertQualities (mid : Nat) (qid : Nat) (pending : List QualityRow) :
    List QualityInput → Option (List QualityRow)
  | [] => some pending
  | q :: rest =>
    if qualityInsertOk pending mid q then
      insertQualities mid (qid + 1) (pending ++ [qualityRowOf qid mid q]) rest
    else none

/-- The rows a fully successful quality loop appends, with sequential ids. -/
def qualRows (mid qid : Nat) : List QualityInput → List QualityRow
  | [] => []
  | q :: rest => qualityRowOf qid mid q :: qualRows mid (qid + 1) rest

/-- The movies-table row add_movie inserts (dict defaults from the source:
language 'english', genre 'Unknown'; is_active defaults TRUE in the schema). -/
def movieRowOf (mid : Nat) (d : MovieInput) : MovieRow :=
  ⟨mid, d.title, d.year, d.description.getD [], d.poster_url.getD [],
   d.language.getD (strCodes "english"), d.genre.getD (strCodes "Unknown"),
   d.duration, d.rating, d.imdb_id.getD [], true⟩

/-- add_movie (database.py 345-394).  The movie INSERT and every quality
INSERT run on one connection and conn.commit() is executed only after the
quality loop; any exception reaches the except clause, which rolls the
whole transaction back and returns the sentinel -1 (it does not re-raise). -/
def add_movie (db : DB) (d : MovieInput) (fail : Bool) : Int × DB :=
  if fail then (-1, db)
  else
    let mid := db.nextMovieId
    let committed :=
      match d.qualities with
      | none => some db.qualities
      | some qs => insertQualities mid db.nextQualityId db.qualities qs
    match committed with
    | none => (-1, db)
    | some newQs =>
      (Int.ofNat mid,
       { db with
           movies := db.movies ++ [movieRowOf mid d],
           qualities := newQs,
           nextMovieId := mid + 1,
           nextQualityId := db.nextQualityId +
             (match d.qualities with | none => 0 | some qs => qs.length) })

/-- add_movie_quality called standalone (database.py 396-436, cursor=None):
it opens its own connection, and on any failure - injected backend failure,
missing movie (FK), NULL in a NOT NULL column, or duplicate
(movie_id, quality_code) - it rolls back and RE-RAISES the exception
(`raise e`), embedded here as Except.error. -/
def add_movie_quality (db : DB) (mid : Nat) (q : QualityInput) (fail : Bool) :
    Except Unit DB :=
  if fail then .error ()
  else if (db.movies.any (fun m => m.id == mid)) && qualityInsertOk db.qualities mid q then
    .ok { db with
            qualities := db.qualities ++ [qualityRowOf db.nextQualityId mid q],
            nextQualityId := db.nextQualityId + 1 }
  else .error ()

/-- delete_movie (database.py 515-544): SELECT the file paths of the
movie's qualities, DELETE the movie row (ON DELETE CASCADE removes its
qualities and watchlist rows), commit, and return the paths.  A failure at
any of the three steps reaches the except clause before the commit, so the
rollback leaves the state unchanged and the empty list is returned; the
single fail flag covers all three failure points because their outcome is
identical. -/
def delete_movie (db : DB) (id : Nat) (fail : Bool) : List Str × DB :=
  if fail then ([], db)
  else
    ((db.qualities.filter (fun q => q.movieId == id)).map (fun q => q.filePath),
     { db with
         movies := db.movies.filter (fun m => !(m.id == id)),
         qualities := db.qualities.filter (fun q => !(q.movieId == id)),
         watchlist := db.watchlist.filter (fun w => !(w.movieId == id)) })

/-- The predicate picking the watchlist rows of one (user, movie) pair. -/
def watchPred (u m : Nat) : WatchRow → Bool :=
  fun w => w.userId == u && w.movieId == m

/-- add_to_watchlist (database.py 548-575): INSERT ... ON CONFLICT
(user_id, movie_id) DO NOTHING, returning rowcount > 0; a backend failure
is converted to false by the except clause. -/
def add_to_watchlist (db : DB) (u m : Nat) (fail : Bool) : Bool × DB :=
  if fail then (false, db)
  else if db.watchlist.any (watchPred u m) then (false, db)
  else (true, { db with watchlist := db.watchlist ++ [⟨u, m⟩] })

/-- The columns of the movies table (init_database, database.py 59-75). -/
def movieColumns : List String :=
  ["id", "title", "year", "description", "poster_url", "language", "genre",
   "duration", "rating", "imdb_id", "created_at", "updated_at", "is_active"]

/-- A value supplied for one field of the update_movie dict. -/
inductive FieldVal where
  | s (v : Str)
  | i (v : Int)
  | b (v : Bool)
  | null
deriving Repr, DecidableEq

/-- The SET clause update_movie builds: the caller-supplied keys other than
'id' are interpolated verbatim, each followed by " = %s" and joined with
", " (database.py 483-489). -/
def update_movie_set_clause (ks : List String) : String :=
  String.intercalate ", " ((ks.filter (fun k => k ≠ "id")).map (fun k => k ++ " = %s"))

/-- The full SQL text update_movie executes (database.py 493-497, with the
f-string's layout whitespace flattened to single spaces). -/
def update_movie_query (ks : List String) : String :=
  "UPDATE movies SET " ++ update_movie_set_clause ks ++
    ", updated_at = CURRENT_TIMESTAMP WHERE id = %s"

/-- Effect of one SET assignment on a movies row, for keys that are plain
column identifiers; a key/value of an unexpected shape leaves the row as is. -/
def applyField (m : MovieRow) : String × FieldVal → MovieRow
  | ("title", .s v) => { m with title := v }
  | ("year", .i v) => { m with year := some v }
  | ("description", .s v) => { m with description := v }
  | ("poster_url", .s v) => { m with posterUrl := v }
  | ("language", .s v) => { m with language := v }
  | ("genre", .s v) => { m with genre := v }
  | ("duration", .i v) => { m with duration := some v }
  | ("rating", .i v) => { m with rating := some v }
  | ("imdb_id", .s v) => { m with imdbId := v }
  | ("is_active", .b v) => { m with isActive := v }
  | (_, _) => m

/-- update_movie (database.py 473-513).  Execution of the dynamically built
SQL is modelled for keys that are plain column identifiers: an unknown
plain identifier makes the backend reject the statement, which the except
clause converts to (false, unchanged).  A key containing SQL metacharacters
is executed verbatim by the real backend; that path is settled by the claim
C5 theorem directly on the SQL text built by update_movie_query, which is
shared source with this definition.  Returns rowcount > 0. -/
def update_movie (db : DB) (id : Nat) (fields : List (String × FieldVal))
    (fail : Bool) : Bool × DB :=
  let fs := fields.filter (fun kv => kv.1 ≠ "id")
  if fail || !(fs.all (fun kv => movieColumns.contains kv.1)) then (false, db)
  else
    (db.movies.any (fun m => m.id == id),
     { db with movies :=
         db.movies.map (fun m => if m.id == id then fs.foldl applyField m else m) })

/-- The language codes of the active movies (what the stats GROUP BY sees). -/
def langsOf (db : DB) : List Str :=
  (db.movies.filter (fun m => m.isActive)).map (fun m => m.language)

/-- The dict get_dashboard_stats returns on success. -/
structure Stats where
  total_movies : Nat
  total_downloads : Nat
  total_users : Nat
  top_languages : List (Str × Nat)
deriving Repr, DecidableEq

/-- get_dashboard_stats (database.py 604-647): counts plus the language
GROUP BY over active movies, ORDER BY count DESC LIMIT 5.  Any query
failure reaches the except clause, which returns the empty dict (none);
nothing propagates. -/
def get_dashboard_stats (db : DB) (fail : Bool) : Option Stats :=
  if fail then none
  else
    some ⟨(db.movies.filter (fun m => m.isActive)).length,
          db.downloadLogs,
          db.users,
          ((sortBy (fun a b => decide (b.2 ≤ a.2))
              ((distincts (langsOf db)).map
                (fun s => (s, (langsOf db).countP (fun t => t == s))))).take 5)⟩

/-- The record get_movie_download_link builds from the first joined row. -/
structure DownloadInfo where
  title : Str
  year : Option Int
  quality : Str
  size : Option Str
  download_link : Str
  file_path : Str
deriving Repr, DecidableEq

/-- get_movie_download_link (database.py 297-341): join of movies and
qualities filtered by LIKE on the title, exact language and quality_code,
active movies only, LIMIT 1 (first row in table order here; the source
guarantees no ordering).  Failures convert to none. -/
def get_movie_download_link (db : DB) (title language qualityCode : Str)
    (fail : Bool) : Option DownloadInfo :=
  if fail then none
  else
    ((db.movies.filter (fun m =>
        m.isActive &&
        likeMatch (lowerStr (37 :: title ++ [37])) (lowerStr m.title) &&
        m.language == language)).foldr
      (fun m acc =>
        ((db.qualities.filter (fun q =>
            q.movieId == m.id && q.qualityCode == qualityCode)).map
          (fun q => DownloadInfo.mk m.title m.year q.qualityName q.fileSize
                      q.downloadUrl q.filePath)) ++ acc)
      []).head?

/-- The allowed upload extensions (both app.py files). -/
def allowedExts : List Str :=
  [strCodes "mp4", strCodes "avi", strCodes "mkv", strCodes "mov", strCodes "webm"]

/-- filename.rsplit(".", 1)[1]: the part after the last dot (46). -/
def extOf (name : Str) : Str := (name.reverse.takeWhile (fun c => !(c == 46))).reverse

/-- allowed_file of both app.py files: has a dot and a whitelisted
lower-cased extension. -/
def allowed_file (name : Str) : Bool :=
  name.contains 46 && allowedExts.contains (lowerStr (extOf name))

/-- Abstraction of werkzeug.utils.secure_filename: keep only ASCII
alphanumerics, dot, underscore and dash.  (Werkzeug also normalises
separators; the upload claims never depend on the sanitised spelling.) -/
def secure_filename (s : Str) : Str :=
  s.filter (fun c =>
    (48 ≤ c && c ≤ 57) || (65 ≤ c && c ≤ 90) || (97 ≤ c && c ≤ 122) ||
    c == 46 || c == 95 || c == 45)

/-- The parts of the multipart upload request the orchestrators read. -/
structure UploadReq where
  title : Str
  fileName : Option Str
  description : Str
  poster : Str
  language : Str
deriving Repr, DecidableEq

/-- The JSON reply of the upload route: HTTP status, the success flag, and
the movie_id field when present. -/
structure UploadResp where
  status : Nat
  success : Bool
  movie_id : Option Int
deriving Repr, DecidableEq

/-- The stored name (uuid4 hex, underscore, sanitised original name); the
random hex is passed in as an argument. -/
def storedName (uuidHex name : Str) : Str := uuidHex ++ 95 :: secure_filename name

/-- admin_upload_movie of the root src/app.py (lines 147-186): validate,
save the file into the upload folder (the fs list), build movie_data with
one hard-coded 720p quality, call database.add_movie and answer success
with whatever id it returned.  database.add_movie converts every insert
failure into the sentinel -1 without raising (database.py 385-389), so the
route's except clause is not reached on a metadata failure and no file is
ever deleted here.  Returns (response, database, upload folder). -/
def admin_upload_movie (db : DB) (fs : List Str) (req : UploadReq)
    (uuidHex : Str) (dbFail : Bool) : UploadResp × DB × List Str :=
  match req.fileName with
  | none => (⟨400, false, none⟩, db, fs)
  | some name =>
    if req.title.isEmpty || !(allowed_file name) then (⟨400, false, none⟩, db, fs)
    else
      let uniq := storedName uuidHex name
      let fs2 := fs ++ [uniq]
      let input : MovieInput :=
        { title := req.title, year := some 2024, description := some req.description,
          poster_url := some req.poster, language := some req.language,
          genre := none, duration := none, rating := none, imdb_id := none,
          qualities := some [⟨strCodes "720p", strCodes "720p HD", some (strCodes "1GB"),
                              some uniq, some (strCodes "/api/movies/" ++ uniq),
                              none, none, none⟩] }
      let r := add_movie db input dbFail
      (⟨200, true, some r.1⟩, r.2, fs2)

/-- admin_upload_movie of backend/app.py (lines 158-250): same pipeline,
with the qualities list taken from the form (code, name, size triples; the
year parse is claim-irrelevant and fixed at the 2024 default).  Its inner
`except db_error` block - the one that removes the saved file - runs only
when add_movie_to_db raises; database.add_movie converts all insert
failures into the sentinel -1 without raising (database.py 385-389), so on
a metadata failure this route also answers success with movie_id -1 and
keeps the file. -/
def admin_upload_movie_backend (db : DB) (fs : List Str) (req : UploadReq)
    (qualities : List (Str × Str × Str)) (uuidHex : Str) (dbFail : Bool) :
    UploadResp × DB × List Str :=
  match req.fileName with
  | none => (⟨400, false, none⟩, db, fs)
  | some name =>
    if req.title.isEmpty then (⟨400, false, none⟩, db, fs)
    else if !(allowed_file name) then (⟨400, false, none⟩, db, fs)
    else
      let uniq := storedName uuidHex name
      let fs2 := fs ++ [uniq]
      let input : MovieInput :=
        { title := req.title, year := some 2024, description := some req.description,
          poster_url := some req.poster, language := some req.language,
          genre := none, duration := none, rating := none, imdb_id := none,
          qualities := some (qualities.map (fun q =>
            ⟨q.1, q.2.1, some q.2.2, some uniq,
             some (strCodes "/api/movies/" ++ uniq), none, none, none⟩)) }
      let r := add_movie db input dbFail
      (⟨200, true, some r.1⟩, r.2, fs2)

/-- The JSON bodies the /api/search route can answer with. -/
inductive ApiResp where
  | sample (title : Str) (year : Int) (quality : Str) (size : Str)
      (language : Str) (link : Str)
  | found (info : DownloadInfo)
  | notFound (title : Str)
deriving Repr, DecidableEq

/-- The hard-coded external link of the 'sample' demo entry. -/
def sampleLink : Str :=
  strCodes "https://commondatastorage.googleapis.com/gtv-videos-bucket/sample/BigBuckBunny.mp4"

/-- The hard-coded external link of the 'test' demo entry (backend only). -/
def testLink : Str :=
  strCodes "https://commondatastorage.googleapis.com/gtv-videos-bucket/sample/ElephantsDream.mp4"

/-- search_movie of the root src/app.py (lines 103-138): strip the title,
default lang 'tamil' and quality '720p', answer the hard-coded sample dict
whenever 'sample' occurs in the lower-cased title, otherwise consult
get_movie_download_link and fall back to available:false. -/
def search_movie_route (db : DB) (titleArg langArg qualityArg : Option Str)
    (dbFail : Bool) : ApiResp :=
  let title := pyStrip (titleArg.getD [])
  let lang := langArg.getD (strCodes "tamil")
  let quality := qualityArg.getD (strCodes "720p")
  if hasSub (strCodes "sample") (lowerStr title) then
    .sample (strCodes "Sample Video") 2023 (upperStr quality) (strCodes "1.2GB")
      lang sampleLink
  else
    match get_movie_download_link db title lang quality dbFail with
    | some info => .found info
    | none => .notFound title

/-- search_movie of backend/app.py (lines 95-144): as the root route, with
a second hard-coded 'test' entry checked after 'sample' (dict order). -/
def search_movie_route_backend (db : DB) (titleArg langArg qualityArg : Option Str)
    (dbFail : Bool) : ApiResp :=
  let title := pyStrip (titleArg.getD [])
  let lang := langArg.getD (strCodes "tamil")
  let quality := qualityArg.getD (strCodes "720p")
  if hasSub (strCodes "sample") (lowerStr title) then
    .sample (strCodes "Sample Video") 2023 (upperStr quality) (strCodes "1.2GB")
      lang sampleLink
  else if hasSub (strCodes "test") (lowerStr title) then
    .sample (strCodes "Test Video") 2023 (upperStr quality) (strCodes "1GB")
      lang testLink
  else
    match get_movie_download_link db title lang quality dbFail with
    | some info => .found info
    | none => .notFound title

/-- Fixture: one well-formed quality input used in concrete checks. -/
def qIn720 : QualityInput :=
  ⟨strCodes "720p", strCodes "720p HD", some (strCodes "1GB"),
   some (strCodes "f.mp4"), some (strCodes "/u"), none, none, none⟩

/-- Fixture: a movie input carrying one quality, used in concrete checks. -/
def movieIn1 : MovieInput :=
  ⟨strCodes "Inception", some 2024, none, none, some (strCodes "english"),
   none, none, none, none, some [qIn720]⟩

/-- Fixture: the upload request used in concrete checks. -/
def uploadReq1 : UploadReq :=
  ⟨strCodes "Inception", some (strCodes "a.mp4"), [], [], strCodes "english"⟩

/-- Fixture: a two-movie database used in concrete checks. -/
def dbFix : DB :=
  ⟨[⟨7, strCodes "ba", none, [], [], strCodes "tamil", [], none, none, [], true⟩,
    ⟨9, strCodes "ab", none, [], [], strCodes "tamil", [], none, none, [], true⟩],
   [⟨1, 7, strCodes "720p", strCodes "720p HD", none, strCodes "f.mp4",
     strCodes "/u", none, none, none⟩],
   [], 0, 0, 10, 2⟩

/-! Helper lemmas: LIKE patterns built from wildcard-free terms are
substring containment. -/

theorem insertBy_perm {α : Type} (le : α → α → Bool) (a : α) :
    ∀ l : List α, List.Perm (insertBy le a l) (a :: l) := by
  intro l
  induction l with
  | nil => exact List.Perm.refl _
  | cons b t ih =>
    by_cases h : le a b = true
    · simp [insertBy, h]
    · simp only [insertBy, h, Bool.false_eq_true, if_false]
      exact ((ih.cons b).trans (List.Perm.swap a b t))

theorem sortBy_perm {α : Type} (le : α → α → Bool) :
    ∀ l : List α, List.Perm (sortBy le l) l := by
  intro l
  induction l with
  | nil => exact List.Perm.refl _
  | cons a t ih => exact (insertBy_perm le a (sortBy le t)).trans (ih.cons a)

theorem mem_sortBy {α : Type} {le : α → α → Bool} {x : α} {l : List α} :
    x ∈ sortBy le l ↔ x ∈ l := (sortBy_perm le l).mem_iff

theorem insertBy_pairwise {α : Type} {le : α → α → Bool}
    (htr : ∀ x y z, le x y = true → le y z = true → le x z = true)
    (hto : ∀ x y, le x y = true ∨ le y x = true) (a : α) :
    ∀ {l : List α}, l.Pairwise (fun x y => le x y = true) →
      (insertBy le a l).Pairwise (fun x y => le x y = true) := by
  intro l
  induction l with
  | nil => intro _; simp [insertBy]
  | cons b t ih =>
    intro h
    rw [List.pairwise_cons] at h
    by_cases hab : le a b = true
    · simp only [insertBy, hab, if_true]
      rw [List.pairwise_cons]
      refine ⟨?_, List.pairwise_cons.mpr h⟩
      intro x hx
      rcases List.mem_cons.mp hx with rfl | hx2
      · exact hab
      · exact htr a b x hab (h.1 x hx2)
    · simp only [insertBy, hab, Bool.false_eq_true, if_false]
      rw [List.pairwise_cons]
      refine ⟨?_, ih h.2⟩
      intro x hx
      rcases List.mem_cons.mp ((insertBy_perm le a t).mem_iff.mp hx) with rfl | hx2
      · rcases hto x b with hh | hh
        · exact absurd hh hab
        · exact hh
      · exact h.1 x hx2

theorem sortBy_pairwise {α : Type} {le : α → α → Bool}
    (htr : ∀ x y z, le x y = true → le y z = true → le x z = true)
    (hto : ∀ x y, le x y = true ∨ le y x = true) :
    ∀ l : List α, (sortBy le l).Pairwise (fun x y => le x y = true) := by
  intro l
  induction l with
  | nil => simp [sortBy]
  | cons a t ih => exact insertBy_pairwise htr hto a ih

/-! Helper lemmas: the lexicographic title order is total and transitive. -/

theorem hasSub_nil : ∀ l : Str, hasSub [] l = true
  | [] => rfl
  | _ :: t => by simp [hasSub, startsW]

theorem isWs_iff {c : Nat} :
    isWs c = true ↔ (c = 32 ∨ c = 9 ∨ c = 10 ∨ c = 13 ∨ c = 11 ∨ c = 12) := by
  simp only [isWs, Bool.or_eq_true, beq_iff_eq]
  omega

theorem hasSub_dropWs {p : Str} (hp : p.all (fun c => !(isWs c)) = true) :
    ∀ {l : Str}, hasSub p l = true → hasSub p (l.dropWhile isWs) = true := by
  intro l
  induction l with
  | nil => exact fun h => h
  | cons c t ih =>
    intro h
    rw [List.dropWhile_cons]
    by_cases hc : isWs c = true
    · simp only [hc, if_true]
      cases p with
      | nil => exact hasSub_nil _
      | cons a p2 =>
        simp only [hasSub, startsW, Bool.or_eq_true, Bool.and_eq_true, beq_iff_eq] at h
        rcases h with ⟨rfl, _⟩ | h2
        · simp only [List.all_cons, Bool.and_eq_true, Bool.not_eq_true'] at hp
          rw [hp.1] at hc
          exact absurd hc (by simp)
        · exact ih h2
    · simp only [hc, if_false]
      exact h

theorem startsW_dropEndWs {p : Str} (hp : p.all (fun c => !(isWs c)) = true) :
    ∀ {t : Str}, startsW p t = true → startsW p (dropEndWs t) = true := by
  induction p with
  | nil => intro t _; rfl
  | cons a p2 ih =>
    intro t h
    cases t with
    | nil => simp [startsW] at h
    | cons c t2 =>
      simp only [startsW, Bool.and_eq_true, beq_iff_eq] at h
      obtain ⟨rfl, h2⟩ := h
      simp only [List.all_cons, Bool.and_eq_true, Bool.not_eq_true'] at hp
      show startsW (a :: p2) (dropEndWs (a :: t2)) = true
      simp only [dropEndWs, hp.1, Bool.and_false, Bool.false_eq_true, if_false]
      simp only [startsW, Bool.and_eq_true, beq_iff_eq]
      exact ⟨trivial, ih hp.2 h2⟩



theorem hasSub_dropEndWs {p : Str} (hp : p.all (fun c => !(isWs c)) = true) :
    ∀ {l : Str}, hasSub p l = true → hasSub p (dropEndWs l) = true := by
  intro l
  induction l with
  | nil => exact fun h => h
  | cons c t ih =>
    intro h
    simp only [hasSub, Bool.or_eq_true] at h
    rcases h with h1 | h2
    · cases p with
      | nil => exact hasSub_nil _
      | cons a p2 =>
        have hac : a = c := by
          simp only [startsW, Bool.and_eq_true, beq_iff_eq] at h1
          exact h1.1
        subst hac
        have hws : isWs a = false := by
          simp only [List.all_cons, Bool.and_eq_true, Bool.not_eq_true'] at hp
          exact hp.1
        have heq : dropEndWs (a :: t) = a :: dropEndWs t := by
          simp only [dropEndWs, hws, Bool.and_false, Bool.false_eq_true, if_false]
        have hs := startsW_dropEndWs hp h1
        rw [heq] at hs
        rw [heq]
        simp only [hasSub, Bool.or_eq_true]
        exact Or.inl hs
    · have ihh := ih h2
      show hasSub p (dropEndWs (c :: t)) = true
      simp only [dropEndWs]
      by_cases hcond : ((dropEndWs t).isEmpty && isWs c) = true
      · simp only [hcond, if_true]
        have : dropEndWs t = [] := by
          simp only [Bool.and_eq_true, List.isEmpty_iff] at hcond
          exact hcond.1
        rw [this] at ihh
        exact ihh
      · simp only [hcond, if_false]
        simp only [hasSub, Bool.or_eq_true]
        exact Or.inr ihh

theorem hasSub_pyStrip {p l : Str} (hp : p.all (fun c => !(isWs c)) = true)
    (h : hasSub p l = true) : hasSub p (pyStrip l) = true :=
  hasSub_dropEndWs hp (hasSub_dropWs hp h)

theorem isWs_lowerChar (c : Nat) : isWs (lowerChar c) = isWs c := by
  unfold lowerChar
  split
  · next h =>
    have h1 : isWs (c + 32) = false := by
      rw [← Bool.not_eq_true, isWs_iff]
      omega
    have h2 : isWs c = false := by
      rw [← Bool.not_eq_true, isWs_iff]
      omega
    rw [h1, h2]
  · rfl

theorem lowerStr_isEmpty (s : Str) : (lowerStr s).isEmpty = s.isEmpty := by
  cases s <;> rfl

theorem lowerStr_dropWhile (l : Str) :
    (lowerStr l).dropWhile isWs = lowerStr (l.dropWhile isWs) := by
  induction l with
  | nil => rfl
  | cons c t ih =>
    show (lowerChar c :: lowerStr t).dropWhile isWs = lowerStr ((c :: t).dropWhile isWs)
    rw [List.dropWhile_cons, List.dropWhile_cons, isWs_lowerChar]
    by_cases hc : isWs c = true
    · simp only [hc, if_true, ih]
    · simp only [hc, Bool.false_eq_true, if_false]
      rfl

theorem lowerStr_dropEndWs (l : Str) :
    dropEndWs (lowerStr l) = lowerStr (dropEndWs l) := by
  induction l with
  | nil => rfl
  | cons c t ih =>
    show dropEndWs (lowerChar c :: lowerStr t) = lowerStr (dropEndWs (c :: t))
    simp only [dropEndWs, ih, lowerStr_isEmpty, isWs_lowerChar]
    by_cases hcond : ((dropEndWs t).isEmpty && isWs c) = true
    · simp only [hcond, if_true]
      rfl
    · simp only [hcond, if_false]
      rfl

theorem lowerStr_pyStrip (l : Str) : pyStrip (lowerStr l) = lowerStr (pyStrip l) := by
  unfold pyStrip
  rw [lowerStr_dropWhile, lowerStr_dropEndWs]

/-! Helper lemmas: the add_movie quality loop. -/

theorem insertQualities_some {mid : Nat} :
    ∀ (qs : List QualityInput) (qid : Nat) (pending res : List QualityRow),
      insertQualities mid qid pending qs = some res →
        res = pending ++ qualRows mid qid qs := by
  intro qs
  induction qs with
  | nil =>
    intro qid pending res h
    simp only [insertQualities, Option.some.injEq] at h
    simp [qualRows, h.symm]
  | cons q rest ih =>
    intro qid pending res h
    simp only [insertQualities] at h
    by_cases hok : qualityInsertOk pending mid q = true
    · rw [if_pos hok] at h
      have h2 := ih (qid + 1) (pending ++ [qualityRowOf qid mid q]) res h
      rw [h2, qualRows, List.append_assoc]
      rfl
    · rw [if_neg hok] at h
      cases h

theorem qualRows_movieId {mid : Nat} :
    ∀ (qs : List QualityInput) (qid : Nat), ∀ r ∈ qualRows mid qid qs, r.movieId = mid := by
  intro qs
  induction qs with
  | nil => intro qid r hr; cases hr
  | cons q rest ih =>
    intro qid r hr
    rcases List.mem_cons.mp hr with rfl | hr2
    · rfl
    · exact ih (qid + 1) r hr2

/-! Helper lemma: search_movies only looks at the lower-cased title. -/

/-- C9: the quality argument of search_movies has no effect on its result -
for every title, language and limit, and any two values of the quality
parameter, search_movies returns identical results over the same database
state (the source accepts the parameter and never uses it). -/
theorem c9_search_quality_no_effect (db : DB) (title : Str) (language : Option Str)
    (q1 q2 : Option Str) (limit : Nat) (fail : Bool) :
    search_movies db title language q1 limit fail =
      search_movies db title language q2 limit fail := rfl

/-- C6 counterexample: the claim says no Catalog Store operation raises to
its caller on a backend failure, but add_movie_quality (called standalone)
re-raises after rollback: on an injected backend failure at a concrete
input it yields the raised-exception outcome, not a converted value. -/
theorem c6_add_movie_quality_raises :
    add_movie_quality emptyDB 1
      ⟨strCodes "720p", strCodes "720p HD", none, some (strCodes "f"),
       some (strCodes "u"), none, none, none⟩ true = Except.error () := rfl

/-- C6 amended: every Catalog Store operation except add_movie_quality
catches backend failures and converts them into a null/empty/false result
instead of raising across the store boundary; add_movie_quality rolls back
and re-raises the failure to its caller. -/
theorem c6_store_failure_conversion :
    (∀ db title language quality limit,
        search_movies db title language quality limit true = []) ∧
    (∀ db d, add_movie db d true = (-1, db)) ∧
    (∀ db id fields, update_movie db id fields true = (false, db)) ∧
    (∀ db id, delete_movie db id true = ([], db)) ∧
    (∀ db u m, add_to_watchlist db u m true = (false, db)) ∧
    (∀ db, get_dashboard_stats db true = none) ∧
    (∀ db t l q, get_movie_download_link db t l q true = none) ∧
    (∀ db mid q, add_movie_quality db mid q true = Except.error ()) :=
  ⟨fun _ _ _ _ _ => rfl, fun _ _ => rfl, fun _ _ _ => rfl, fun _ _ => rfl,
   fun _ _ _ => rfl, fun _ => rfl, fun _ _ _ _ => rfl, fun _ _ _ => rfl⟩

/-- C4: delete_movie returns, on success, the file_path of every quality
row of the movie while the movie row is removed from the table; on any
failure it returns the empty list with the state unchanged; and it never
returns a non-empty path list while the movie row is still present. -/
theorem c4_delete_movie_atomic_paths (db : DB) (id : Nat) (fail : Bool) :
    delete_movie db id true = ([], db) ∧
    ((delete_movie db id false).1 =
        (db.qualities.filter (fun q => q.movieId == id)).map (fun q => q.filePath) ∧
      ∀ m ∈ (delete_movie db id false).2.movies, m.id ≠ id) ∧
    ((delete_movie db id fail).1 ≠ [] →
      ∀ m ∈ (delete_movie db id fail).2.movies, m.id ≠ id) := by
  have hrm : ∀ m ∈ (delete_movie db id false).2.movies, m.id ≠ id := by
    intro m hm
    have heq : (delete_movie db id false).2.movies =
        db.movies.filter (fun m => !(m.id == id)) := rfl
    rw [heq] at hm
    simp only [List.mem_filter, Bool.not_eq_true', beq_eq_false_iff_ne] at hm
    exact hm.2
  refine ⟨rfl, ⟨rfl, hrm⟩, ?_⟩
  intro hne
  cases fail with
  | true => exact absurd rfl hne
  | false => exact hrm

/-- C4 witness: the guarantees at a concrete one-movie database. -/
theorem c4_delete_movie_atomic_paths_witness :
    (delete_movie ⟨[⟨7, strCodes "A", none, [], [], strCodes "tamil", [], none,
          none, [], true⟩],
        [⟨1, 7, strCodes "720p", strCodes "720p HD", none, strCodes "f.mp4",
          strCodes "/u", none, none, none⟩], [], 0, 0, 8, 2⟩ 7 true =
      ([], ⟨[⟨7, strCodes "A", none, [], [], strCodes "tamil", [], none,
          none, [], true⟩],
        [⟨1, 7, strCodes "720p", strCodes "720p HD", none, strCodes "f.mp4",
          strCodes "/u", none, none, none⟩], [], 0, 0, 8, 2⟩)) ∧
    ((delete_movie ⟨[⟨7, strCodes "A", none, [], [], strCodes "tamil", [], none,
          none, [], true⟩],
        [⟨1, 7, strCodes "720p", strCodes "720p HD", none, strCodes "f.mp4",
          strCodes "/u", none, none, none⟩], [], 0, 0, 8, 2⟩ 7 false).1 =
        ((⟨[⟨7, strCodes "A", none, [], [], strCodes "tamil", [], none,
          none, [], true⟩],
        [⟨1, 7, strCodes "720p", strCodes "720p HD", none, strCodes "f.mp4",
          strCodes "/u", none, none, none⟩], [], 0, 0, 8, 2⟩ : DB).qualities.filter
            (fun q => q.movieId == 7)).map (fun q => q.filePath) ∧
      ∀ m ∈ (delete_movie ⟨[⟨7, strCodes "A", none, [], [], strCodes "tamil", [], none,
          none, [], true⟩],
        [⟨1, 7, strCodes "720p", strCodes "720p HD", none, strCodes "f.mp4",
          strCodes "/u", none, none, none⟩], [], 0, 0, 8, 2⟩ 7 false).2.movies,
        m.id ≠ 7) ∧
    ((delete_movie ⟨[⟨7, strCodes "A", none, [], [], strCodes "tamil", [], none,
          none, [], true⟩],
        [⟨1, 7, strCodes "720p", strCodes "720p HD", none, strCodes "f.mp4",
          strCodes "/u", none, none, none⟩], [], 0, 0, 8, 2⟩ 7 false).1 ≠ [] →
      ∀ m ∈ (delete_movie ⟨[⟨7, strCodes "A", none, [], [], strCodes "tamil", [], none,
          none, [], true⟩],
        [⟨1, 7, strCodes "720p", strCodes "720p HD", none, strCodes "f.mp4",
          strCodes "/u", none, none, none⟩], [], 0, 0, 8, 2⟩ 7 false).2.movies,
        m.id ≠ 7) :=
  c4_delete_movie_atomic_paths _ 7 false

/-- C1: add_movie is all-or-nothing.  When the quality loop fails, the
operation reports the failure sentinel and the movie row does not persist
(the whole uncommitted transaction is rolled back, database.py 385-389);
when every insert succeeds, the returned id is the new movie row's id and
the committed qualities of that id are exactly the supplied list.  The
freshness hypotheses are the SERIAL-key schema invariant. -/
theorem c1_add_movie_all_or_nothing (db : DB) (d : MovieInput) (qs : List QualityInput)
    (hq : d.qualities = some qs)
    (hfreshM : ∀ m ∈ db.movies, m.id ≠ db.nextMovieId)
    (hfreshQ : ∀ q ∈ db.qualities, q.movieId ≠ db.nextMovieId) :
    (insertQualities db.nextMovieId db.nextQualityId db.qualities qs = none →
        add_movie db d false = (-1, db) ∧
        movieRowOf db.nextMovieId d ∉ (add_movie db d false).2.movies) ∧
    (∀ res, insertQualities db.nextMovieId db.nextQualityId db.qualities qs = some res →
        (add_movie db d false).1 = Int.ofNat db.nextMovieId ∧
        (add_movie db d false).2.movies = db.movies ++ [movieRowOf db.nextMovieId d] ∧
        (add_movie db d false).2.qualities.filter
            (fun r => r.movieId == db.nextMovieId) =
          qualRows db.nextMovieId db.nextQualityId qs) := by
  constructor
  · intro hnone
    have he : add_movie db d false = (-1, db) := by
      simp only [add_movie, Bool.false_eq_true, if_false, hq, hnone]
    refine ⟨he, ?_⟩
    rw [he]
    intro hmem
    exact hfreshM _ hmem rfl
  · intro res hres
    have hrows := insertQualities_some qs db.nextQualityId db.qualities res hres
    have he : add_movie db d false =
        (Int.ofNat db.nextMovieId,
         { db with movies := db.movies ++ [movieRowOf db.nextMovieId d],
                   qualities := res,
                   nextMovieId := db.nextMovieId + 1,
                   nextQualityId := db.nextQualityId + qs.length }) := by
      simp only [add_movie, Bool.false_eq_true, if_false, hq, hres]
    rw [he]
    refine ⟨rfl, rfl, ?_⟩
    show res.filter (fun r => r.movieId == db.nextMovieId) = _
    rw [hrows, List.filter_append]
    have hA : db.qualities.filter (fun r => r.movieId == db.nextMovieId) = [] := by
      rw [List.filter_eq_nil_iff]
      intro a ha
      simp only [beq_iff_eq]
      exact hfreshQ a ha
    have hB : (qualRows db.nextMovieId db.nextQualityId qs).filter
        (fun r => r.movieId == db.nextMovieId) =
        qualRows db.nextMovieId db.nextQualityId qs := by
      rw [List.filter_eq_self]
      intro a ha
      simp only [beq_iff_eq]
      exact qualRows_movieId qs db.nextQualityId a ha
    rw [hA, hB, List.nil_append]

/-- C1 witness: the all-or-nothing contract at the empty database with one
supplied quality. -/
theorem c1_add_movie_all_or_nothing_witness :
    movieIn1.qualities = some [qIn720] ∧
    ((insertQualities emptyDB.nextMovieId emptyDB.nextQualityId emptyDB.qualities
          [qIn720] = none →
        add_movie emptyDB movieIn1 false = (-1, emptyDB) ∧
        movieRowOf emptyDB.nextMovieId movieIn1 ∉
          (add_movie emptyDB movieIn1 false).2.movies) ∧
     (∀ res, insertQualities emptyDB.nextMovieId emptyDB.nextQualityId
          emptyDB.qualities [qIn720] = some res →
        (add_movie emptyDB movieIn1 false).1 = Int.ofNat emptyDB.nextMovieId ∧
        (add_movie emptyDB movieIn1 false).2.movies =
          emptyDB.movies ++ [movieRowOf emptyDB.nextMovieId movieIn1] ∧
        (add_movie emptyDB movieIn1 false).2.qualities.filter
            (fun r => r.movieId == emptyDB.nextMovieId) =
          qualRows emptyDB.nextMovieId emptyDB.nextQualityId [qIn720])) :=
  ⟨rfl, c1_add_movie_all_or_nothing emptyDB movieIn1 [qIn720] rfl (by decide) (by decide)⟩

/-- C2 (code-bug evaluation): an upload whose file write succeeds and whose
metadata persist fails.  Both orchestrators keep the stored file in the
upload folder, leave the database unchanged, and answer success:true with
the sentinel movie_id -1 - the compensating delete never runs, because
add_movie signals failure by returning -1 instead of raising. -/
theorem c2_upload_orphan_on_metadata_failure :
    ((admin_upload_movie emptyDB [] uploadReq1 (strCodes "deadbeef") true).1.success
        = true ∧
      (admin_upload_movie emptyDB [] uploadReq1 (strCodes "deadbeef") true).1.movie_id
        = some (-1) ∧
      (admin_upload_movie emptyDB [] uploadReq1 (strCodes "deadbeef") true).2.2
        = [storedName (strCodes "deadbeef") (strCodes "a.mp4")] ∧
      (admin_upload_movie emptyDB [] uploadReq1 (strCodes "deadbeef") true).2.1
        = emptyDB) ∧
    ((admin_upload_movie_backend emptyDB [] uploadReq1
        [(strCodes "720p", strCodes "720p HD", strCodes "1GB")]
        (strCodes "deadbeef") true).1.success = true ∧
      (admin_upload_movie_backend emptyDB [] uploadReq1
        [(strCodes "720p", strCodes "720p HD", strCodes "1GB")]
        (strCodes "deadbeef") true).1.movie_id = some (-1) ∧
      (admin_upload_movie_backend emptyDB [] uploadReq1
        [(strCodes "720p", strCodes "720p HD", strCodes "1GB")]
        (strCodes "deadbeef") true).2.2
        = [storedName (strCodes "deadbeef") (strCodes "a.mp4")] ∧
      (admin_upload_movie_backend emptyDB [] uploadReq1
        [(strCodes "720p", strCodes "720p HD", strCodes "1GB")]
        (strCodes "deadbeef") true).2.1 = emptyDB) := by
  decide

/-- C5 (code-bug evaluation): update_movie interpolates caller-supplied
field names into the SQL text without checking them against the movie
columns: the field name "is_active = FALSE, title" is not a recognized
movie attribute, yet the executed statement becomes an UPDATE of is_active
and title.  A legitimate key produces the expected parameterized SET
clause. -/
theorem c5_update_movie_unvetted_key_in_sql :
    update_movie_query ["is_active = FALSE, title"] =
      "UPDATE movies SET is_active = FALSE, title = %s, updated_at = CURRENT_TIMESTAMP WHERE id = %s" ∧
    movieColumns.contains "is_active = FALSE, title" = false ∧
    update_movie_query ["language"] =
      "UPDATE movies SET language = %s, updated_at = CURRENT_TIMESTAMP WHERE id = %s" := by
  refine ⟨by decide, by decide, by decide⟩

/-- C8: the dashboard stats succeed with a topLanguages list of length at
most five, sorted descending by count, each count being the language's
count over active movies only; on a query failure the operation yields the
empty result instead of propagating. -/
theorem c8_dashboard_stats (db : DB) (st : Stats)
    (h : get_dashboard_stats db false = some st) :
    get_dashboard_stats db true = none ∧
    st.top_languages.length ≤ 5 ∧
    st.top_languages.Pairwise (fun a b => b.2 ≤ a.2) ∧
    (∀ p ∈ st.top_languages, p.2 = (langsOf db).countP (fun t => t == p.1)) := by
  simp only [get_dashboard_stats, Bool.false_eq_true, if_false, Option.some.injEq] at h
  subst h
  refine ⟨rfl, List.length_take_le _ _, ?_, ?_⟩
  · have htr : ∀ x y z : Str × Nat,
        decide (y.2 ≤ x.2) = true → decide (z.2 ≤ y.2) = true →
          decide (z.2 ≤ x.2) = true := by
      intro x y z hxy hyz
      simp only [decide_eq_true_eq] at hxy hyz ⊢
      omega
    have hto : ∀ x y : Str × Nat,
        decide (y.2 ≤ x.2) = true ∨ decide (x.2 ≤ y.2) = true := by
      intro x y
      simp only [decide_eq_true_eq]
      omega
    have hp := sortBy_pairwise htr hto
      ((distincts (langsOf db)).map
        (fun s => (s, (langsOf db).countP (fun t => t == s))))
    have hp2 := hp.imp (fun hab => of_decide_eq_true hab)
    exact hp2.sublist (List.take_sublist _ _)
  · intro p hp
    have hp1 := List.mem_of_mem_take hp
    have hp2 := mem_sortBy.mp hp1
    obtain ⟨s, _, rfl⟩ := List.mem_map.mp hp2
    rfl

/-- C8 witness: the stats contract at the concrete two-movie database. -/
theorem c8_dashboard_stats_witness :
    get_dashboard_stats dbFix true = none ∧
    (Stats.mk 2 0 0 [(strCodes "tamil", 2)]).top_languages.length ≤ 5 ∧
    (Stats.mk 2 0 0 [(strCodes "tamil", 2)]).top_languages.Pairwise
      (fun a b => b.2 ≤ a.2) ∧
    (∀ p ∈ (Stats.mk 2 0 0 [(strCodes "tamil", 2)]).top_languages,
        p.2 = (langsOf dbFix).countP (fun t => t == p.1)) :=
  c8_dashboard_stats dbFix ⟨2, 0, 0, [(strCodes "tamil", 2)]⟩ (by decide)

/-- C10: whenever the lower-cased title parameter contains "sample", both
/api/search routes answer the hard-coded sample body - available:true,
title "Sample Video", the external BigBuckBunny link, the echoed language
and upper-cased quality - and the answer is identical over any two
database states and backend-failure conditions: the catalog store is never
consulted. -/
theorem c10_search_sample_short_circuit (db db2 : DB) (titleArg : Str)
    (langArg qualityArg : Option Str) (f1 f2 : Bool)
    (h : hasSub (strCodes "sample") (lowerStr titleArg) = true) :
    search_movie_route db (some titleArg) langArg qualityArg f1 =
      ApiResp.sample (strCodes "Sample Video") 2023
        (upperStr (qualityArg.getD (strCodes "720p"))) (strCodes "1.2GB")
        (langArg.getD (strCodes "tamil")) sampleLink ∧
    search_movie_route db (some titleArg) langArg qualityArg f1 =
      search_movie_route db2 (some titleArg) langArg qualityArg f2 ∧
    search_movie_route_backend db (some titleArg) langArg qualityArg f1 =
      ApiResp.sample (strCodes "Sample Video") 2023
        (upperStr (qualityArg.getD (strCodes "720p"))) (strCodes "1.2GB")
        (langArg.getD (strCodes "tamil")) sampleLink ∧
    search_movie_route_backend db (some titleArg) langArg qualityArg f1 =
      search_movie_route_backend db2 (some titleArg) langArg qualityArg f2 := by
  have hnws : (strCodes "sample").all (fun c => !(isWs c)) = true := by decide
  have hcond : hasSub (strCodes "sample") (lowerStr (pyStrip titleArg)) = true := by
    rw [← lowerStr_pyStrip]
    exact hasSub_pyStrip hnws h
  have hroot : search_movie_route db (some titleArg) langArg qualityArg f1 =
      ApiResp.sample (strCodes "Sample Video") 2023
        (upperStr (qualityArg.getD (strCodes "720p"))) (strCodes "1.2GB")
        (langArg.getD (strCodes "tamil")) sampleLink := by
    simp only [search_movie_route, Option.getD_some]
    rw [if_pos hcond]
  have hroot2 : search_movie_route db2 (some titleArg) langArg qualityArg f2 =
      ApiResp.sample (strCodes "Sample Video") 2023
        (upperStr (qualityArg.getD (strCodes "720p"))) (strCodes "1.2GB")
        (langArg.getD (strCodes "tamil")) sampleLink := by
    simp only [search_movie_route, Option.getD_some]
    rw [if_pos hcond]
  have hback : search_movie_route_backend db (some titleArg) langArg qualityArg f1 =
      ApiResp.sample (strCodes "Sample Video") 2023
        (upperStr (qualityArg.getD (strCodes "720p"))) (strCodes "1.2GB")
        (langArg.getD (strCodes "tamil")) sampleLink := by
    simp only [search_movie_route_backend, Option.getD_some]
    rw [if_pos hcond]
  have hback2 : search_movie_route_backend db2 (some titleArg) langArg qualityArg f2 =
      ApiResp.sample (strCodes "Sample Video") 2023
        (upperStr (qualityArg.getD (strCodes "720p"))) (strCodes "1.2GB")
        (langArg.getD (strCodes "tamil")) sampleLink := by
    simp only [search_movie_route_backend, Option.getD_some]
    rw [if_pos hcond]
  exact ⟨hroot, hroot.trans hroot2.symm, hback, hback.trans hback2.symm⟩

/-- C10 witness: the short circuit at a concrete request whose title is
" My SAMPLE Movie " over two different databases and failure conditions. -/
theorem c10_search_sample_short_circuit_witness :
    search_movie_route emptyDB (some (strCodes " My SAMPLE Movie ")) none none true =
      ApiResp.sample (strCodes "Sample Video") 2023
        (upperStr ((none : Option Str).getD (strCodes "720p"))) (strCodes "1.2GB")
        ((none : Option Str).getD (strCodes "tamil")) sampleLink ∧
    search_movie_route emptyDB (some (strCodes " My SAMPLE Movie ")) none none true =
      search_movie_route dbFix (some (strCodes " My SAMPLE Movie ")) none none false ∧
    search_movie_route_backend emptyDB (some (strCodes " My SAMPLE Movie ")) none none true =
      ApiResp.sample (strCodes "Sample Video") 2023
        (upperStr ((none : Option Str).getD (strCodes "720p"))) (strCodes "1.2GB")
        ((none : Option Str).getD (strCodes "tamil")) sampleLink ∧
    search_movie_route_backend emptyDB (some (strCodes " My SAMPLE Movie ")) none none true =
      search_movie_route_backend dbFix (some (strCodes " My SAMPLE Movie ")) none none false :=
  c10_search_sample_short_circuit emptyDB dbFix (strCodes " My SAMPLE Movie ")
    none none true false (by decide)

/-! Helper lemmas: the search pipeline keeps ids distinct and rows sorted. -/

end NetBox
